import Mathlib

/-
Shallow embedding of src/java/jvm_balloon.cc (the OSv JVM balloon driver).

Addresses are modelled as natural numbers (the source manipulates
`unsigned char *` pointers; all address arithmetic performed by the code
stays within the mapped buffer, which the theorems make explicit through
hypotheses wherever a subtraction occurs).  Calls into the mmu subsystem
(mmu::map_jvm / mmu::map_anon) are recorded as events in a trace so that
the ordering of mapping operations can be stated; `assert(...)` failures
are modelled by returning `none`.
-/

namespace JvmBalloon

/-- Source: `constexpr size_t balloon_size = (128ULL << 20);` -/
def balloon_size : Nat := 128 <<< 20

/-- Modelled from the spec: `mmu::huge_page_size` (the mmu subsystem is not
under src/); the default balloon alignment is "one huge-page granule",
2 MiB on x86-64. -/
def huge_page_size : Nat := 2 <<< 20

/-- Modelled from the spec: `align_down` from align.hh (not under src/) rounds
an address down to a multiple of the alignment.  The C++ implementation is the
bit-clear `n & ~(alignment - 1)`, which for a power-of-two alignment equals
`alignment * (n / alignment)`. -/
def align_down (n a : Nat) : Nat := a * (n / a)

/-- Modelled from the spec: `align_up` from align.hh (not under src/) rounds an
address up to a multiple of the alignment, via
`align_down(n + alignment - 1, alignment)` exactly as the C++ helper does. -/
def align_up (n a : Nat) : Nat := align_down (n + a - 1) a

/-- The mutable state of `class balloon`:
`_jvm_addr` (buffer base), `_addr` (hole start), `_jvm_end_addr`
(buffer end), `_end` (hole end, renamed `end_` since `end` is a Lean
keyword), `_alignment` and `_balloon_size`.  The `jobject _jref` field
carries no arithmetic content and is not modelled. -/
structure Balloon where
  jvm_addr : Nat
  addr : Nat
  jvm_end_addr : Nat
  end_ : Nat
  alignment : Nat
  balloon_size : Nat
deriving DecidableEq

/-- One call into the mmu mapping layer, recorded so the order of
`mmu::map_anon` / `mmu::map_jvm` calls can be stated. -/
inductive MapEvent where
  | map_jvm (addr len : Nat)
  | map_anon (addr len : Nat)
deriving DecidableEq

/-- Modelled from the spec: `mmu::map_jvm(addr, size, owner)` (the mmu
subsystem is not under src/) registers the range as an unbacked hole owned by
the balloon and returns the mapped byte length ("registers
`[hole_start, hole_end)` with the Mapper ... and returns the hole's byte
length"). -/
def map_jvm (_addr len : Nat) : Nat := len

/-- Source: `size_t hole_size() { return _end - _addr; }` -/
def Balloon.hole_size (b : Balloon) : Nat := b.end_ - b.addr

/-- Source: `size_t size() { return _balloon_size; }` -/
def Balloon.size (b : Balloon) : Nat := b.balloon_size

/-- Source: `ulong balloon::empty_area()`.  Recomputes `_jvm_end_addr`,
`_addr`, `_end` from `_jvm_addr` and returns `mmu::map_jvm(_addr,
hole_size(), this)`, recording the mapping call in the trace. -/
def Balloon.empty_area (b : Balloon) : Balloon × Nat × List MapEvent :=
  let jvm_end_addr := b.jvm_addr + b.balloon_size
  let addr := align_up b.jvm_addr b.alignment
  let end_ := align_down jvm_end_addr b.alignment
  let b' : Balloon := { b with jvm_end_addr := jvm_end_addr, addr := addr, end_ := end_ }
  (b', map_jvm addr b'.hole_size, [MapEvent.map_jvm addr b'.hole_size])

/-- The member-initializer part of `balloon::balloon(jvm_addr, jref,
alignment, size)`.  `_addr`, `_jvm_end_addr` and `_end` are left
uninitialized by the constructor and are first written by `empty_area`;
they are set to 0 here and never observed before being overwritten. -/
def balloon_init (jvm_addr alignment size : Nat) : Balloon :=
  { jvm_addr := jvm_addr, addr := 0, jvm_end_addr := 0, end_ := 0,
    alignment := alignment, balloon_size := size }

/-- Source: `balloon::balloon` asserts `mutex_owned(&balloons_lock)` and does
`balloons.push_front(this)`.  The assert is modelled by returning `none`
when the lock is not held. -/
def balloon_ctor (lockHeld : Bool) (jvm_addr alignment size : Nat)
    (reg : List Balloon) : Option (Balloon × List Balloon) :=
  if lockHeld then
    let b := balloon_init jvm_addr alignment size
    some (b, b :: reg)
  else none

/-- Source: `void balloon::release(JNIEnv *env)`.  Asserts the lock, calls
`mmu::map_anon(_addr, hole_size(), flags, perms)`, drops the global
reference (not modelled) and removes itself from `balloons`. -/
def Balloon.release (b : Balloon) (lockHeld : Bool) (reg : List Balloon) :
    Option (List Balloon × List MapEvent) :=
  if lockHeld then
    some (reg.erase b, [MapEvent.map_anon b.addr b.hole_size])
  else none

/-- Source: `size_t balloon::move_balloon(unsigned char *dest, unsigned char
*src)`.  Computes `skipped = _addr - _jvm_addr`, asserts the lock, sets
`_jvm_addr = dest - skipped`, re-backs the old hole with
`mmu::map_anon(_addr, hole_size(), ...)` (still the old `_addr`/`_end`),
calls `empty_area()` and returns `_jvm_end_addr - dest`.  The `src`
argument is accepted but never read, exactly as in the source. -/
def Balloon.move_balloon (b : Balloon) (lockHeld : Bool) (dest src : Nat) :
    Option (Balloon × Nat × List MapEvent) :=
  let skipped := b.addr - b.jvm_addr
  if lockHeld then
    let b1 : Balloon := { b with jvm_addr := dest - skipped }
    let r := b1.empty_area
    some (r.1, r.1.jvm_end_addr - dest, MapEvent.map_anon b1.addr b1.hole_size :: r.2.2)
  else none

/-- Source: `void jvm_balloon_fault(balloon *b, exception_frame *ef)`.
Takes the registry lock, asserts `!balloons.empty()`, asserts that
`memcpy_find_decoder(ef)` found a decoder, extracts `(dest, src)` from the
frame and calls `b->move_balloon(dest, src)` (whose result is handed to
`decode->memcpy_fixup`).  A decoder that successfully classified the fault
is modelled as `some (dest, src)`. -/
def jvm_balloon_fault (b : Balloon) (reg : List Balloon)
    (decode : Option (Nat × Nat)) : Option (Balloon × Nat × List MapEvent) :=
  if reg.isEmpty then none
  else
    match decode with
    | none => none
    | some ds => b.move_balloon true ds.1 ds.2

/-- One allocation attempt inside `request_memory`'s loop: the address
obtained from `GetPrimitiveArrayCritical`, whether `NewByteArray` left a
pending exception, and the `iscopy` flag. -/
structure AllocResult where
  addr : Nat
  exc : Bool
  iscopy : Bool
deriving DecidableEq

/-- Source: the `do { ... } while (ret < size)` loop of
`jvm_balloon_shrinker::request_memory`, driven by a finite stream of
allocation results.  Each iteration allocates; on a pending exception it
clears it and breaks; on a pinned (non-copy) buffer it constructs a
`balloon` with the default alignment and size, registers it (push_front),
accumulates `empty_area()`'s return into `ret`, and then breaks
(`if (!iscopy) break;`); on a copy it loops again while `ret < size`.
`none` means the loop was still running when the finite stream of
allocation results was exhausted.  The returned `Bool` is the pending
exception state of the runtime at the moment of return. -/
def request_memory_loop (size : Nat) :
    Nat → List Balloon → List AllocResult → Option (Nat × Bool × List Balloon)
  | _, _, [] => none
  | ret, reg, a :: rest =>
    if a.exc then
      some (ret, false, reg)
    else if a.iscopy then
      if ret < size then request_memory_loop size ret reg rest
      else some (ret, false, reg)
    else
      let r := (balloon_init a.addr huge_page_size balloon_size).empty_area
      some (ret + r.2.1, false, r.1 :: reg)

/-- Source: `size_t jvm_balloon_shrinker::request_memory(size_t size)` with
`ret = 0` and (for the theorems below) an initially empty registry. -/
def request_memory (size : Nat) (allocs : List AllocResult) :
    Option (Nat × Bool × List Balloon) :=
  request_memory_loop size 0 [] allocs

/-- Source: the `while ((ret < size) && !balloons.empty())` loop of
`jvm_balloon_shrinker::release_memory`.  The loop takes `balloons.back()`,
adds its `size()` to `ret` and removes it; recursing on the reversed
registry makes `back()` the head. -/
def release_memory_go (size : Nat) : Nat → List Balloon → Nat × List Balloon
  | ret, [] => (ret, [])
  | ret, b :: rest =>
    if ret < size then release_memory_go size (ret + b.size) rest
    else (ret, b :: rest)

/-- Source: `size_t jvm_balloon_shrinker::release_memory(size_t size)`.
Returns the reclaimed byte count and the registry left behind. -/
def release_memory (size : Nat) (reg : List Balloon) : Nat × List Balloon :=
  let r := release_memory_go size 0 reg.reverse
  (r.1, r.2.reverse)

/-- Total number of bytes accounted by `size()` over a registry. -/
def sumSizes (l : List Balloon) : Nat := (l.map Balloon.size).sum

/-- The spec's balloon invariant: hole bounds are alignment multiples and
`buffer_base ≤ hole_start ≤ hole_end ≤ buffer_base + balloon_size`. -/
def holeInvariant (b : Balloon) : Prop :=
  b.alignment ∣ b.addr ∧ b.alignment ∣ b.end_ ∧
    b.jvm_addr ≤ b.addr ∧ b.addr ≤ b.end_ ∧ b.end_ ≤ b.jvm_addr + b.balloon_size

/-- An allocation attempt that yielded a runtime-issued copy. -/
def copyAlloc : AllocResult := { addr := 0, exc := false, iscopy := true }

/-- A pinned (non-copy) allocation at a huge-page-aligned address. -/
def pinnedAlloc : AllocResult := { addr := 0x40000000, exc := false, iscopy := false }

/-- An allocation that left a pending failure in the runtime. -/
def excAlloc : AllocResult := { addr := 0, exc := true, iscopy := false }

/-- A balloon freshly inflated at a huge-page-aligned address with the
default alignment and size. -/
def defaultBalloon (p : Nat) : Balloon :=
  ((balloon_init p huge_page_size balloon_size).empty_area).1

/-- A balloon whose hole starts exactly 4096 bytes past its buffer base:
inflated at 0x101000 with alignment 8192 (so `align_up` lands on
0x102000). -/
def bC3 : Balloon := ((balloon_init 0x101000 8192 balloon_size).empty_area).1

/-- A balloon inflated at the unaligned address 0x1001 with page alignment,
so that `skipped = hole_start - buffer_base = 4095` is not an alignment
multiple. -/
def bC4 : Balloon := ((balloon_init 0x1001 4096 balloon_size).empty_area).1

/-- The balloon of the spec's Scenario A: `alignment = 4096`,
`balloon_size = 128 MiB`, `buffer_base = 0x1000`. -/
def bC5 : Balloon := balloon_init 0x1000 4096 balloon_size

/-- A balloon inflated at the unaligned address 0x1001, used to witness the
hole invariant. -/
def bW7 : Balloon := balloon_init 0x1001 4096 balloon_size

/-- Rounding down never increases an address. -/
lemma align_down_le (n a : Nat) : align_down n a ≤ n := by
  show a * (n / a) ≤ n
  rw [Nat.mul_comm]
  exact Nat.div_mul_le_self n a

/-- Rounding up never decreases an address (for a positive alignment). -/
lemma le_align_up (n a : Nat) (h : 0 < a) : n ≤ align_up n a := by
  show n ≤ a * ((n + a - 1) / a)
  have hdm := Nat.div_add_mod (n + a - 1) a
  have hmlt : (n + a - 1) % a < a := Nat.mod_lt _ h
  obtain ⟨m, hm⟩ : ∃ m, a * ((n + a - 1) / a) = m := ⟨_, rfl⟩
  obtain ⟨r, hr⟩ : ∃ r, (n + a - 1) % a = r := ⟨_, rfl⟩
  rw [hm, hr] at hdm
  rw [hr] at hmlt
  rw [hm]
  omega

/-- If the region is at least one alignment granule long, the rounded-up
start does not pass the rounded-down end. -/
lemma align_up_le_align_down (n s a : Nat) (h : 0 < a) (hs : a ≤ s) :
    align_up n a ≤ align_down (n + s) a := by
  show a * ((n + a - 1) / a) ≤ a * ((n + s) / a)
  exact Nat.mul_le_mul_left a (Nat.div_le_div_right (by omega))

lemma align_down_dvd (n a : Nat) : a ∣ align_down n a := ⟨n / a, rfl⟩

lemma align_up_dvd (n a : Nat) : a ∣ align_up n a := align_down_dvd _ _

/-- Recomputing the hole with `empty_area` establishes the spec's balloon
invariant whenever the alignment is positive and no larger than the
balloon size (true for the constructor defaults of 2 MiB and 128 MiB). -/
lemma empty_area_invariant (b : Balloon) (h : 0 < b.alignment)
    (hs : b.alignment ≤ b.balloon_size) : holeInvariant (b.empty_area).1 := by
  refine ⟨align_up_dvd _ _, align_down_dvd _ _, le_align_up _ _ h,
    align_up_le_align_down _ _ _ h hs, align_down_le _ _⟩

/-- While `ret < size`, a copy-bit-set allocation neither accumulates
bytes nor breaks out: the loop is still running after any number of
copy allocations. -/
lemma replicate_copy_none (size ret : Nat) (reg : List Balloon) (h : ret < size) :
    ∀ k, request_memory_loop size ret reg (List.replicate k copyAlloc) = none := by
  intro k
  induction k with
  | zero => rfl
  | succ n ih =>
    rw [List.replicate_succ]
    simp only [request_memory_loop]
    rw [if_neg (by decide), if_pos (by decide), if_pos h]
    exact ih

lemma sumSizes_nil : sumSizes [] = 0 := rfl

lemma sumSizes_cons (b : Balloon) (l : List Balloon) :
    sumSizes (b :: l) = b.size + sumSizes l := by
  simp [sumSizes]

lemma sumSizes_reverse (l : List Balloon) : sumSizes l.reverse = sumSizes l := by
  unfold sumSizes
  rw [List.map_reverse, List.sum_reverse]

/-- The release loop never reclaims more than the bytes present in the
registry it walks. -/
lemma release_memory_go_le (size : Nat) :
    ∀ (l : List Balloon) (ret : Nat),
      (release_memory_go size ret l).1 ≤ ret + sumSizes l := by
  intro l
  induction l with
  | nil => intro ret; simp [release_memory_go, sumSizes_nil]
  | cons b rest ih =>
    intro ret
    rw [sumSizes_cons]
    simp only [release_memory_go]
    split
    · have := ih (ret + b.size)
      omega
    · simp

/-- If the loop's target exceeds everything in the registry, the loop
consumes the whole registry. -/
lemma release_memory_go_exhaust (size : Nat) :
    ∀ (l : List Balloon) (ret : Nat), ret + sumSizes l < size →
      release_memory_go size ret l = (ret + sumSizes l, []) := by
  intro l
  induction l with
  | nil => intro ret h; simp [release_memory_go, sumSizes_nil]
  | cons b rest ih =>
    intro ret h
    rw [sumSizes_cons] at h ⊢
    have hlt : ret < size := by omega
    simp only [release_memory_go, if_pos hlt]
    rw [ih (ret + b.size) (by omega)]
    have : ret + b.size + sumSizes rest = ret + (b.size + sumSizes rest) := by omega
    rw [this]

/-- The release loop removes some prefix of the (reversed) registry and
returns exactly the sum of the removed balloons' sizes. -/
lemma release_memory_go_decomp (size : Nat) :
    ∀ (l : List Balloon) (ret : Nat),
      ∃ k, release_memory_go size ret l = (ret + sumSizes (l.take k), l.drop k) := by
  intro l
  induction l with
  | nil => intro ret; exact ⟨0, by simp [release_memory_go, sumSizes_nil]⟩
  | cons b rest ih =>
    intro ret
    by_cases hlt : ret < size
    · obtain ⟨k, hk⟩ := ih (ret + b.size)
      refine ⟨k + 1, ?_⟩
      simp only [release_memory_go, if_pos hlt]
      rw [hk, List.take_succ_cons, List.drop_succ_cons, sumSizes_cons]
      have : ret + b.size + sumSizes (rest.take k) =
          ret + (b.size + sumSizes (rest.take k)) := by omega
      rw [this]
    · exact ⟨0, by simp [release_memory_go, if_neg hlt, sumSizes_nil]⟩

/-- C1: the claim states that a copy-bit-set buffer aborts the whole
`request_memory` attempt while pinned allocations keep the loop running
until `reclaimed ≥ target`.  The code does the opposite: `if (!iscopy)
break;` stops after the first pinned allocation even though only
`balloon_size < 2 * balloon_size` bytes were reclaimed, and copy-bit-set
allocations never abort — the loop is still running after any number `k`
of consecutive copies (contradicting the source's own comment "Avoid
entering any endless loops. Fail imediately"). -/
theorem request_memory_termination_bug :
    (∀ (k : Nat) (reg : List Balloon),
      request_memory_loop (2 * balloon_size) 0 reg (List.replicate k copyAlloc) = none) ∧
    (request_memory (2 * balloon_size) [pinnedAlloc]).map (fun r => r.1) =
      some balloon_size ∧
    balloon_size < 2 * balloon_size :=
  ⟨fun k reg => replicate_copy_none _ _ reg (by decide) k, by decide, by decide⟩

/-- C2: the claim states that `request_memory(n)` returns 0 when every
allocation yields a copy-bit-set buffer.  In fact for `n = 1` the loop
never returns at all on an all-copy stream (no abort, no accumulation),
while the pinned half of the claim does hold: a single pinned allocation
at an aligned address returns exactly `balloon_size` even for the target
`5 < balloon_size`. -/
theorem request_memory_copy_never_returns :
    (∀ (k : Nat) (reg : List Balloon),
      request_memory_loop 1 0 reg (List.replicate k copyAlloc) = none) ∧
    (request_memory 5 [pinnedAlloc]).map (fun r => r.1) = some balloon_size ∧
    5 < balloon_size :=
  ⟨fun k reg => replicate_copy_none _ _ reg (by decide) k, by decide, by decide⟩

/-- C5 (counterexample): for the Scenario A balloon (`alignment = 4096`,
`balloon_size = 128 MiB`, `buffer_base = 0x1000`), `empty_area()` does not
return `128 MiB - 4096`: 0x1000 is already page-aligned, so no leading
page is lost. -/
theorem empty_area_scenarioA_counterexample :
    (bC5.empty_area).2.1 ≠ balloon_size - 4096 := by decide

/-- C5 (amended): for the Scenario A balloon, `empty_area()` returns a hole
length of exactly 128 MiB, with `hole_start = 0x1000` and
`hole_end = buffer_base + 128 MiB`. -/
theorem empty_area_scenarioA :
    (bC5.empty_area).2.1 = balloon_size ∧
    (bC5.empty_area).1.addr = 0x1000 ∧
    (bC5.empty_area).1.end_ = 0x1000 + balloon_size := by decide

/-- C3: under the registry lock, `move_balloon(dest, src)` skips
`skipped = hole_start - old buffer_base` bytes, sets the buffer base to
`dest - skipped`, re-backs the old hole (`map_anon` of the old
`[hole_start, hole_end)`) strictly before registering the new hole
(`map_jvm` of the recomputed hole), and returns
`new buffer_end - dest` where the new buffer end is the new base plus
`balloon_size`. -/
theorem move_balloon_spec (b : Balloon) (dest src : Nat)
    (h1 : b.jvm_addr ≤ b.addr) (h2 : b.addr - b.jvm_addr ≤ dest) :
    ∃ b' trailing trace,
      b.move_balloon true dest src = some (b', trailing, trace) ∧
      b'.jvm_addr = dest - (b.addr - b.jvm_addr) ∧
      b'.jvm_end_addr = b'.jvm_addr + b.balloon_size ∧
      trailing = b'.jvm_end_addr - dest ∧
      trace = [MapEvent.map_anon b.addr b.hole_size,
               MapEvent.map_jvm b'.addr b'.hole_size] :=
  ⟨_, _, _, rfl, rfl, rfl, rfl, rfl⟩

/-- C3 (witness): the spec's Scenario C on a balloon whose hole starts at
`buffer_base + 4096`, with `dest = buffer_base + 64 = 1052736` and
`src = buffer_base = 1052672`: `skipped = 4096` and the new buffer base is
`dest - 4096`. -/
theorem move_balloon_spec_witness :
    bC3.jvm_addr ≤ bC3.addr ∧
    bC3.addr - bC3.jvm_addr ≤ 1052736 ∧
    bC3.addr - bC3.jvm_addr = 4096 ∧
    (∃ b' trailing trace,
      bC3.move_balloon true 1052736 1052672 = some (b', trailing, trace) ∧
      b'.jvm_addr = 1052736 - (bC3.addr - bC3.jvm_addr) ∧
      b'.jvm_end_addr = b'.jvm_addr + bC3.balloon_size ∧
      trailing = b'.jvm_end_addr - 1052736 ∧
      trace = [MapEvent.map_anon bC3.addr bC3.hole_size,
               MapEvent.map_jvm b'.addr b'.hole_size]) :=
  ⟨by decide, by decide, by decide,
    move_balloon_spec bC3 1052736 1052672 (by decide) (by decide)⟩

/-- C4 (counterexample): the claimed hole length
`align_down(dest + balloon_size, alignment) - align_up(dest, alignment)`
is wrong for the balloon inflated at 0x1001 (where
`skipped = 4095` is not a multiple of the 4096 alignment) moved to the
aligned destination 0x200000: the code's hole measures
`balloon_size - 4096` while the claimed formula gives `balloon_size`. -/
theorem move_balloon_hole_size_counterexample :
    (bC4.move_balloon true 0x200000 0x1001).map (fun out => out.1.hole_size) =
      some (balloon_size - 4096) ∧
    align_down (0x200000 + bC4.balloon_size) bC4.alignment -
      align_up 0x200000 bC4.alignment = balloon_size ∧
    balloon_size - 4096 ≠ balloon_size := by decide

/-- C4 (amended): the hole length after `move_balloon(dest, src)` equals
`align_down(base' + balloon_size, alignment) - align_up(base', alignment)`
for the new buffer base `base' = dest - skipped` (with
`skipped = hole_start - buffer_base` taken before the call), and the
result does not depend on `src`.  The claim's formula — with `dest` in
place of `dest - skipped` — holds only when `skipped` is a multiple of
the alignment. -/
theorem move_balloon_hole_size (b : Balloon) (dest src src' : Nat)
    (out : Balloon × Nat × List MapEvent)
    (hout : b.move_balloon true dest src = some out) :
    out.1.hole_size =
      align_down (dest - (b.addr - b.jvm_addr) + b.balloon_size) b.alignment -
        align_up (dest - (b.addr - b.jvm_addr)) b.alignment ∧
    b.move_balloon true dest src = b.move_balloon true dest src' := by
  have hv := Option.some.inj hout
  rw [← hv]
  exact ⟨rfl, rfl⟩

/-- C4 (witness): the amended formula evaluated on the 0x1001 balloon moved
to 0x200000. -/
theorem move_balloon_hole_size_witness :
    bC4.move_balloon true 0x200000 7 =
      some ((bC4.move_balloon true 0x200000 7).getD (bC4, 0, [])) ∧
    ((bC4.move_balloon true 0x200000 7).getD (bC4, 0, [])).1.hole_size =
      align_down (0x200000 - (bC4.addr - bC4.jvm_addr) + bC4.balloon_size)
          bC4.alignment -
        align_up (0x200000 - (bC4.addr - bC4.jvm_addr)) bC4.alignment :=
  ⟨by decide,
    (move_balloon_hole_size bC4 0x200000 7 9 _ (by decide)).1⟩

/-- C6: `release_memory` never returns more than the sum of `size()` over
the balloons registered at call start; it leaves the registry exactly
empty when the target exceeds that total; and (Scenario B) with two
balloons registered, releasing one balloon's worth removes exactly one
balloon and leaves exactly one entry. -/
theorem release_memory_bounds (size : Nat) (reg : List Balloon) :
    (release_memory size reg).1 ≤ sumSizes reg ∧
    (sumSizes reg < size → (release_memory size reg).2 = []) ∧
    release_memory balloon_size
        [defaultBalloon 0x40000000, defaultBalloon 0x50000000] =
      (balloon_size, [defaultBalloon 0x40000000]) := by
  refine ⟨?_, ?_, by decide⟩
  · have h := release_memory_go_le size reg.reverse 0
    rw [sumSizes_reverse] at h
    simpa [release_memory] using h
  · intro h
    have hx : 0 + sumSizes reg.reverse < size := by
      rw [sumSizes_reverse]; omega
    show ((release_memory_go size 0 reg.reverse).2).reverse = []
    rw [release_memory_go_exhaust size reg.reverse 0 hx]
    rfl

/-- C6 (witness): releasing more than the single registered balloon's bytes
empties the registry. -/
theorem release_memory_bounds_witness :
    sumSizes [defaultBalloon 0x40000000] < balloon_size + 1 ∧
    (release_memory (balloon_size + 1) [defaultBalloon 0x40000000]).2 = [] :=
  ⟨by decide,
    (release_memory_bounds (balloon_size + 1) [defaultBalloon 0x40000000]).2.1
      (by decide)⟩

/-- C7: after `empty_area()` (which is what construction immediately
performs) and after every completed `move_balloon`, the hole bounds are
multiples of the balloon's alignment and satisfy
`buffer_base ≤ hole_start ≤ hole_end ≤ buffer_base + balloon_size`,
provided the alignment is positive and at most the balloon size (true for
the constructor defaults of 2 MiB and 128 MiB). -/
theorem hole_invariant_preserved (b : Balloon) (h : 0 < b.alignment)
    (hs : b.alignment ≤ b.balloon_size) :
    holeInvariant (b.empty_area).1 ∧
    ∀ dest src out, b.move_balloon true dest src = some out →
      holeInvariant out.1 := by
  refine ⟨empty_area_invariant b h hs, ?_⟩
  intro dest src out hout
  have hv := Option.some.inj hout
  rw [← hv]
  exact empty_area_invariant _ h hs

/-- C7 (witness): the invariant holds for the balloon inflated at the
unaligned address 0x1001 with page alignment. -/
theorem hole_invariant_preserved_witness :
    0 < bW7.alignment ∧ bW7.alignment ≤ bW7.balloon_size ∧
    holeInvariant (bW7.empty_area).1 :=
  ⟨by decide, by decide,
    (hole_invariant_preserved bW7 (by decide) (by decide)).1⟩

/-- C8: with the registry lock held, the constructor, `release` and
`move_balloon` asserts all pass (the operations return a value rather
than aborting), and a fault delivered while the registry is non-empty
with a successfully classified copy instruction passes the fault
handler's asserts as well. -/
theorem balloon_assertions_hold (jvm_addr a s : Nat) (reg : List Balloon)
    (b : Balloon) (dest src : Nat) (d : Nat × Nat) (hreg : reg ≠ []) :
    (balloon_ctor true jvm_addr a s reg).isSome ∧
    (b.release true reg).isSome ∧
    (b.move_balloon true dest src).isSome ∧
    (jvm_balloon_fault b reg (some d)).isSome := by
  refine ⟨rfl, rfl, rfl, ?_⟩
  cases reg with
  | nil => exact absurd rfl hreg
  | cons x xs => rfl

/-- C8 (witness): a fault on a live balloon with a one-element registry and
a classified decoder succeeds. -/
theorem balloon_assertions_hold_witness :
    ([defaultBalloon 0x40000000] ≠ ([] : List Balloon)) ∧
    (jvm_balloon_fault (defaultBalloon 0x40000000) [defaultBalloon 0x40000000]
      (some (0x50000000, 0x40000000))).isSome :=
  ⟨by decide,
    (balloon_assertions_hold 0 4096 balloon_size [defaultBalloon 0x40000000]
      (defaultBalloon 0x40000000) 0 0 (0x50000000, 0x40000000)
      (by decide)).2.2.2⟩

/-- C9: `request_memory` never propagates a runtime exception: every
terminating run of the allocation loop returns a byte count with the
runtime's pending-failure flag clear, and when an allocation leaves a
pending failure the loop clears it and immediately returns the bytes
reclaimed so far. -/
theorem request_memory_no_throw :
    (∀ (size : Nat) (allocs : List AllocResult) (ret : Nat) (reg : List Balloon)
        (out : Nat × Bool × List Balloon),
      request_memory_loop size ret reg allocs = some out → out.2.1 = false) ∧
    (∀ (size ret : Nat) (reg : List Balloon) (a : AllocResult)
        (rest : List AllocResult), a.exc = true →
      request_memory_loop size ret reg (a :: rest) = some (ret, false, reg)) := by
  constructor
  · intro size allocs
    induction allocs with
    | nil =>
      intro ret reg out h
      simp [request_memory_loop] at h
    | cons a rest ih =>
      intro ret reg out h
      simp only [request_memory_loop] at h
      split at h
      · cases Option.some.inj h; rfl
      · split at h
        · split at h
          · exact ih ret reg out h
          · cases Option.some.inj h; rfl
        · cases Option.some.inj h; rfl
  · intro size ret reg a rest ha
    simp only [request_memory_loop]
    rw [if_pos ha]

/-- C9 (witness): a first-allocation failure for target 7 with 3 bytes
already reclaimed clears the exception and returns the partial count. -/
theorem request_memory_no_throw_witness :
    excAlloc.exc = true ∧
    request_memory_loop 7 3 [] [excAlloc] = some (3, false, []) ∧
    ((3, false, ([] : List Balloon)) : Nat × Bool × List Balloon).2.1 = false :=
  ⟨rfl, request_memory_no_throw.2 7 3 [] excAlloc [] rfl,
    request_memory_no_throw.1 7 [excAlloc] 3 [] (3, false, []) (by decide)⟩

/-- C10: `release_memory` deflates only whole balloons — the registry left
behind is a prefix of the original and the returned count is exactly the
sum of the removed balloons' sizes — and may therefore exceed the
requested target: `release_memory(1)` with one default-sized balloon
registered returns 128 MiB and empties the registry. -/
theorem release_memory_whole_balloons (size : Nat) (reg : List Balloon) :
    (∃ removed, reg = (release_memory size reg).2 ++ removed ∧
      (release_memory size reg).1 = sumSizes removed) ∧
    release_memory 1 [defaultBalloon 0x40000000] = (balloon_size, []) ∧
    1 < balloon_size := by
  refine ⟨?_, by decide, by decide⟩
  obtain ⟨k, hk⟩ := release_memory_go_decomp size reg.reverse 0
  refine ⟨(reg.reverse.take k).reverse, ?_, ?_⟩
  · show reg =
      ((release_memory_go size 0 reg.reverse).2).reverse ++
        (reg.reverse.take k).reverse
    rw [hk, ← List.reverse_append, List.take_append_drop, List.reverse_reverse]
  · show (release_memory_go size 0 reg.reverse).1 =
      sumSizes ((reg.reverse.take k).reverse)
    rw [hk, sumSizes_reverse]
    simp

end JvmBalloon
